import Mathlib

/-!
Verification of the escrow state machine in `src/lib.rs`
(`mod lock_unlock_smart_contract`).

The contract stores `locker : Option<AccountId>` and `locked_amount : Balance`
and exposes two messages, `lock` and `redeem`.  We embed the two message
bodies as pure Lean functions.  The pieces of the ink! environment the bodies
read are passed as explicit arguments:

* `caller` — result of `self.env().caller()`;
* `transferred` — result of `self.env().transferred_value()` (for `lock`);
* `transferSucceeds` — whether `self.env().transfer(...)` returns `Ok`
  (for `redeem`); the transfer executor is external, so its outcome is an
  input of the model.

Each call returns, besides the `Result<(), Error>` value and the new storage,
the list of events emitted via `emit_event` and the list of invocations of
the external transfer executor, in order, so that emission and invocation
facts can be stated.

`AccountId` is opaque and comparable for equality; `Balance` is `u128`, and
the code performs no arithmetic on it (it is only stored and compared with
zero), so both are modelled by `Nat`.
-/

namespace LockUnlock

/-- Account identifier: opaque, compared only for equality. -/
abbrev AccountId := Nat

/-- Balance (`u128` in ink!); no arithmetic is performed on it in the code. -/
abbrev Balance := Nat

/-- The error enum of the contract (`enum Error` in `src/lib.rs`). -/
inductive Error where
  | AssetsAlreadyLocked
  | NoAssetsSent
  | NotLocker
  | IncorrectMessage
  | TransferFailed
deriving DecidableEq

/-- The contract storage (`#[ink(storage)] struct LockUnlockSmartContract`). -/
structure LockUnlockSmartContract where
  locker : Option AccountId
  locked_amount : Balance
deriving DecidableEq

/-- The two event shapes (`struct Locked`, `struct Redeemed`), each carrying
the locker's account and the amount. -/
inductive Event where
  | Locked (locker : AccountId) (amount : Balance)
  | Redeemed (locker : AccountId) (amount : Balance)
deriving DecidableEq

/-- `impl Default`: no locker, zero amount. -/
def LockUnlockSmartContract.default : LockUnlockSmartContract :=
  { locker := none, locked_amount := 0 }

/-- The `new` constructor, which returns `Self::default()`. -/
def LockUnlockSmartContract.new : LockUnlockSmartContract :=
  LockUnlockSmartContract.default

/-- The observable outcome of one message call: the returned
`Result<(), Error>`, the storage after the call, the events emitted during
the call, and the `(recipient, amount)` invocations of the external value
transfer executor made during the call, in order. -/
structure CallResult where
  result : Except Error Unit
  state : LockUnlockSmartContract
  events : List Event
  transfers : List (AccountId × Balance)

/-- The body of `pub fn lock(&mut self)` (lines 100–125 of `src/lib.rs`):
reject when a locker is already recorded, reject a zero transferred value,
otherwise record the caller and the amount and emit `Locked`. -/
def lock (s : LockUnlockSmartContract) (caller : AccountId)
    (transferred : Balance) : CallResult :=
  if s.locker.isSome then
    ⟨.error .AssetsAlreadyLocked, s, [], []⟩
  else if transferred = 0 then
    ⟨.error .NoAssetsSent, s, [], []⟩
  else
    ⟨.ok (), { locker := some caller, locked_amount := transferred },
      [.Locked caller transferred], []⟩

/-- The body of `pub fn redeem(&mut self, message: String)` (lines 139–169 of
`src/lib.rs`): reject unless the stored locker equals the caller, reject a
message other than "Hello, World!", then invoke the transfer executor with
`(caller, locked_amount)`; on executor failure return `TransferFailed` with
the storage untouched, on success clear the storage and emit `Redeemed`. -/
def redeem (s : LockUnlockSmartContract) (caller : AccountId)
    (message : String) (transferSucceeds : Bool) : CallResult :=
  if s.locker ≠ some caller then
    ⟨.error .NotLocker, s, [], []⟩
  else if message ≠ "Hello, World!" then
    ⟨.error .IncorrectMessage, s, [], []⟩
  else
    let amount := s.locked_amount
    if transferSucceeds then
      ⟨.ok (), { locker := none, locked_amount := 0 },
        [.Redeemed caller amount], [(caller, amount)]⟩
    else
      ⟨.error .TransferFailed, s, [], [(caller, amount)]⟩

/-- One message call against the stored state: either `lock` with some caller
and transferred value, or `redeem` with some caller, message and transfer
outcome.  Only the resulting storage matters for reachability. -/
inductive Step : LockUnlockSmartContract → LockUnlockSmartContract → Prop where
  | lockStep (s : LockUnlockSmartContract) (caller : AccountId)
      (transferred : Balance) : Step s (lock s caller transferred).state
  | redeemStep (s : LockUnlockSmartContract) (caller : AccountId)
      (message : String) (ok : Bool) :
      Step s (redeem s caller message ok).state

/-- Storage states reachable from the constructed contract by any sequence
of `lock` and `redeem` calls. -/
inductive Reachable : LockUnlockSmartContract → Prop where
  | init : Reachable LockUnlockSmartContract.new
  | step {s t : LockUnlockSmartContract} : Reachable s → Step s t → Reachable t

/-- Claim C1: on a Locked state with owner `o` and amount `a`, `redeem` by `o`
with the exact phrase, when the transfer executor fails, returns
`TransferFailed`, leaves the storage unchanged (`Locked` with `o` and `a`),
and emits no event (in particular no `Redeemed`); the one transfer attempt
carried `(o, a)`. -/
theorem redeem_transfer_failure_keeps_state (o : AccountId) (a : Balance) :
    redeem ⟨some o, a⟩ o "Hello, World!" false =
      ⟨.error .TransferFailed, ⟨some o, a⟩, [], [(o, a)]⟩ := by
  simp [redeem]

/-- Claim C4: on a Locked state with owner `o` and amount `a`, `redeem` by `o`
with the exact phrase, when the transfer executor succeeds, returns `Ok`,
invokes the transfer of exactly `a` to `o`, resets the storage to the empty
state, and emits exactly one `Redeemed o a` event. -/
theorem redeem_success (o : AccountId) (a : Balance) :
    redeem ⟨some o, a⟩ o "Hello, World!" true =
      ⟨.ok (), ⟨none, 0⟩, [.Redeemed o a], [(o, a)]⟩ := by
  simp [redeem]

/-- Claim C5: on an Empty machine (no locker recorded, whatever amount field
it carries), `redeem` with any caller, message and transfer outcome returns
`NotLocker` and leaves the state unchanged, emitting nothing and invoking no
transfer. -/
theorem redeem_on_empty_fails (a0 : Balance) (c : AccountId) (m : String)
    (ok : Bool) :
    redeem ⟨none, a0⟩ c m ok = ⟨.error .NotLocker, ⟨none, a0⟩, [], []⟩ := by
  simp [redeem]

/-- Claim C6: on a Locked machine, `lock` with any caller and any transferred
value — zero included, the current owner included — returns
`AssetsAlreadyLocked` and leaves the state unchanged; the `Option.isSome`
check on the locker is reached before the zero-value check. -/
theorem lock_on_locked_fails (o : AccountId) (a : Balance) (c : AccountId)
    (v : Balance) :
    lock ⟨some o, a⟩ c v = ⟨.error .AssetsAlreadyLocked, ⟨some o, a⟩, [], []⟩ := by
  simp [lock]

/-- Claim C3: on an Empty machine, `lock` by caller `c` with transferred value
`v > 0` succeeds, the storage becomes Locked with owner `c` and amount `v`,
and exactly one `Locked c v` event is emitted. -/
theorem lock_on_empty_succeeds (s : LockUnlockSmartContract) (c : AccountId)
    (v : Balance) (h : s.locker = none) (hv : 0 < v) :
    lock s c v = ⟨.ok (), ⟨some c, v⟩, [.Locked c v], []⟩ := by
  simp [lock, h, hv.ne']

/-- Witness for claim C3 at the freshly constructed contract, caller 5 and
value 100. -/
theorem lock_on_empty_succeeds_witness :
    lock LockUnlockSmartContract.new 5 100 =
      ⟨.ok (), ⟨some 5, 100⟩, [.Locked 5 100], []⟩ :=
  lock_on_empty_succeeds LockUnlockSmartContract.new 5 100 (by decide) (by decide)

/-- Claim C7: on a Locked state with owner `o` and amount `a`, `redeem` by `o`
with a message other than the exact literal returns `IncorrectMessage`,
invokes no transfer, and leaves the state unchanged. -/
theorem redeem_wrong_message_fails (o : AccountId) (a : Balance) (m : String)
    (ok : Bool) (hm : m ≠ "Hello, World!") :
    redeem ⟨some o, a⟩ o m ok = ⟨.error .IncorrectMessage, ⟨some o, a⟩, [], []⟩ := by
  simp [redeem, hm]

/-- Witness for claim C7 at owner 1, amount 100 and the message
"Wrong message". -/
theorem redeem_wrong_message_fails_witness :
    redeem ⟨some 1, 100⟩ 1 "Wrong message" true =
      ⟨.error .IncorrectMessage, ⟨some 1, 100⟩, [], []⟩ :=
  redeem_wrong_message_fails 1 100 "Wrong message" true (by decide)

/-- Claim C8: for any state whose recorded locker is not the caller `c`
(the Empty state included), `redeem` returns `NotLocker` with the state
unchanged and, moreover, its whole outcome is independent of the message and
of the transfer outcome: two calls with arbitrary messages and transfer
outcomes produce identical results, so a non-owner observes nothing about
the secret phrase. -/
theorem redeem_non_owner_independent_of_message (s : LockUnlockSmartContract)
    (c : AccountId) (m1 m2 : String) (ok1 ok2 : Bool)
    (h : s.locker ≠ some c) :
    redeem s c m1 ok1 = ⟨.error .NotLocker, s, [], []⟩ ∧
    redeem s c m1 ok1 = redeem s c m2 ok2 := by
  simp [redeem, h]

/-- Witness for claim C8: the locker is account 1, the caller account 2, with
two different messages and transfer outcomes. -/
theorem redeem_non_owner_independent_of_message_witness :
    redeem ⟨some 1, 100⟩ 2 "Hello, World!" true =
      ⟨.error .NotLocker, ⟨some 1, 100⟩, [], []⟩ ∧
    redeem ⟨some 1, 100⟩ 2 "Hello, World!" true =
      redeem ⟨some 1, 100⟩ 2 "guess" false :=
  redeem_non_owner_independent_of_message ⟨some 1, 100⟩ 2 "Hello, World!"
    "guess" true false (by decide)

/-- Claim C9: within one `redeem` call the transfer executor is invoked at
most once; it is invoked (then with recipient the caller and the stored
amount) exactly when the state is Locked with owner equal to the caller and
the message is the exact phrase; and when the executor fails the storage has
not yet been cleared — the call leaves the state unchanged, so the transfer
attempt precedes the state reset. -/
theorem redeem_transfer_invocation (s : LockUnlockSmartContract)
    (c : AccountId) (m : String) (ok : Bool) :
    (redeem s c m ok).transfers.length ≤ 1 ∧
    ((redeem s c m ok).transfers = [(c, s.locked_amount)] ↔
      (s.locker = some c ∧ m = "Hello, World!")) ∧
    ((redeem s c m ok).result = .error .TransferFailed →
      (redeem s c m ok).state = s) := by
  unfold redeem
  split
  · next h => simp [h]
  · next h =>
    split
    · next hm => simp [hm]
    · next hm =>
      rcases not_not.mp h with h
      rcases not_not.mp hm with hm
      cases ok <;> simp [h, hm]

/-- Claim C10: no event is emitted on a failing call: whenever `lock` or
`redeem` returns an error, its event list is empty (so no `Locked` event on a
failed `lock` and no `Redeemed` event on a failed `redeem`). -/
theorem no_event_on_error (s : LockUnlockSmartContract) (c : AccountId)
    (v : Balance) (m : String) (ok : Bool) :
    (∀ e : Error, (lock s c v).result = .error e → (lock s c v).events = []) ∧
    (∀ e : Error, (redeem s c m ok).result = .error e →
      (redeem s c m ok).events = []) := by
  constructor
  · intro e
    unfold lock
    split
    · simp
    · split <;> simp
  · intro e
    unfold redeem
    split
    · simp
    · split
      · simp
      · cases ok <;> simp

/-- A `lock` call preserves the storage invariant that a locker is recorded
exactly when the stored amount is positive. -/
theorem lock_preserves_inv (s : LockUnlockSmartContract) (c : AccountId)
    (v : Balance) (h : s.locker.isSome ↔ 0 < s.locked_amount) :
    ((lock s c v).state.locker.isSome ↔ 0 < (lock s c v).state.locked_amount) := by
  unfold lock
  split
  · exact h
  · split
    · exact h
    · next hv => simpa using Nat.pos_of_ne_zero hv

/-- A `redeem` call preserves the storage invariant that a locker is recorded
exactly when the stored amount is positive. -/
theorem redeem_preserves_inv (s : LockUnlockSmartContract) (c : AccountId)
    (m : String) (ok : Bool) (h : s.locker.isSome ↔ 0 < s.locked_amount) :
    ((redeem s c m ok).state.locker.isSome ↔
      0 < (redeem s c m ok).state.locked_amount) := by
  unfold redeem
  split
  · exact h
  · split
    · exact h
    · cases ok <;> simp [h]

/-- Claim C2: in every state reachable from the constructed contract by any
sequence of `lock` and `redeem` calls — any callers, values, messages and
transfer outcomes — the deposit record exists exactly when the machine is
Locked and its amount is then positive: `locker` is `some` if and only if
`locked_amount > 0`. -/
theorem reachable_locker_iff_amount_pos (s : LockUnlockSmartContract)
    (h : Reachable s) : s.locker.isSome ↔ 0 < s.locked_amount := by
  induction h with
  | init => simp [LockUnlockSmartContract.new, LockUnlockSmartContract.default]
  | step hr hstep ih =>
    cases hstep with
    | lockStep c v => exact lock_preserves_inv _ c v ih
    | redeemStep c m ok => exact redeem_preserves_inv _ c m ok ih

/-- Witness for claim C2 at the freshly constructed contract. -/
theorem reachable_locker_iff_amount_pos_witness :
    (LockUnlockSmartContract.new.locker.isSome ↔
      0 < LockUnlockSmartContract.new.locked_amount) :=
  reachable_locker_iff_amount_pos LockUnlockSmartContract.new Reachable.init

end LockUnlock
